import Mathlib

/-!
Shallow embedding of the TIMESHARE price-checker core
(`backend-integration.js` and `netlify/functions/refresh-prices.js`).

Modelling conventions:
* JavaScript numbers are rationals; `JsNum := Option ℚ` where `none`
  stands for a value that is not a finite number (`undefined` / `NaN`):
  both are falsy, both compare `> 0` as `false`, and arithmetic on them
  yields `none` again, matching JS coercion on these operations.
* JavaScript `x || d` on numbers/strings (which treats `0`, `""`,
  `null`, `undefined` as falsy) is modelled by the `numOr` / `jsOrStr` /
  `jsOrStrOpt` helpers.
* `fetch` is modelled by a caller-supplied oracle
  `net : String → RequestBody → HttpResponse`; every function that can
  issue requests also returns the ordered list of `(url, payload)`
  requests it actually issued, so "never calls the remote client" is the
  statement that this list is empty.  Transport-level failures
  (timeout/abort) are outside this model: the oracle always yields a
  response.
* The DOM elements touched by the UI code are a record of
  `Option String` fields (`none` = element absent, `some txt` = its
  current text content).
-/

/-- JavaScript number: `none` models `undefined`/`NaN`. -/
abbrev JsNum := Option ℚ

/-- JS truthiness of a number (`0`, `NaN`, `undefined` are falsy). -/
def jsTruthy : JsNum → Bool
  | some q => q != 0
  | none => false

/-- JS `x > 0` (false on `undefined`/`NaN`). -/
def jsGtZero : JsNum → Bool
  | some q => decide (0 < q)
  | none => false

/-- JS addition; any non-number operand poisons the result (`NaN`). -/
def jsAdd : JsNum → JsNum → JsNum
  | some a, some b => some (a + b)
  | _, _ => none

/-- JS subtraction. -/
def jsSub : JsNum → JsNum → JsNum
  | some a, some b => some (a - b)
  | _, _ => none

/-- JS multiplication. -/
def jsMul : JsNum → JsNum → JsNum
  | some a, some b => some (a * b)
  | _, _ => none

/-- JS division by the constant 2. -/
def jsHalf : JsNum → JsNum
  | some a => some (a / 2)
  | none => none

/-- JS `a || b` on numbers. -/
def jsOrNum (a b : JsNum) : JsNum := if jsTruthy a then a else b

/-- JS `x || d` where `x` is a possibly-absent number and `d` a number
    (`numOr o d` is the value of `o || d`). -/
def numOr (o : Option ℚ) (d : ℚ) : ℚ :=
  match o with
  | some q => if q = 0 then d else q
  | none => d

/-- JS truthiness of a possibly-absent string (empty string is falsy). -/
def strTruthy : Option String → Bool
  | some s => s != ""
  | none => false

/-- JS `x || d` where `x` is a possibly-absent string and `d` a string. -/
def jsOrStr (a : Option String) (d : String) : String :=
  match a with
  | some s => if s = "" then d else s
  | none => d

/-- JS `a || b` on possibly-absent strings. -/
def jsOrStrOpt (a b : Option String) : Option String :=
  if strTruthy a then a else b

/-- JS string coercion of a nullable string (template literals and
    `String.prototype.includes` render `null` as `"null"`). -/
def jsStringOfNullable (o : Option String) : String :=
  match o with
  | some s => s
  | none => "null"

/-- JS `Math.round` / `Number.prototype.toFixed(0)`: the integer closest
    to `q`, ties resolved to the larger integer. -/
def jsRound (q : ℚ) : ℤ := ⌊q + 1 / 2⌋

/-- JS `+x.toFixed(2)`: round to two decimal places, ties to the larger. -/
def jsFix2 (q : ℚ) : ℚ := ((⌊100 * q + 1 / 2⌋ : ℤ) : ℚ) / 100

/-- JS `String.prototype.toLowerCase` (ASCII case mapping, as
    `Char.toLower` performs). -/
def strLower (s : String) : String := String.mk (s.data.map Char.toLower)

/-- `leadsWith l sub` iff `sub` is an initial block of `l`. -/
def leadsWith : List Char → List Char → Bool
  | _, [] => true
  | [], _ :: _ => false
  | a :: as, b :: bs => a == b && leadsWith as bs

/-- `hasSub l sub` iff `sub` occurs contiguously somewhere in `l`. -/
def hasSub : List Char → List Char → Bool
  | [], sub => sub.isEmpty
  | a :: as, sub => leadsWith (a :: as) sub || hasSub as sub

/-- JS `s.includes(sub)`: contiguous-substring test. -/
def strIncludes (s sub : String) : Bool := hasSub s.data sub.data

/-- JS `s.startsWith(pre)`. -/
def strStartsWith (s pre : String) : Bool := leadsWith s.data pre.data

/-- JS `s.substring(n)` (drop the first `n` characters). -/
def strDrop (s : String) (n : Nat) : String := String.mk (s.data.drop n)

/-- JS `s.trim()`: strip leading and trailing whitespace. -/
def strTrim (s : String) : String :=
  String.mk (((s.data.dropWhile Char.isWhitespace).reverse.dropWhile
    Char.isWhitespace).reverse)

theorem leadsWith_append (xs ys : List Char) : leadsWith (xs ++ ys) xs = true := by
  induction xs with
  | nil => cases ys <;> rfl
  | cons a as ih => simp [leadsWith, ih]

theorem hasSub_of_leadsWith (l sub : List Char) (h : leadsWith l sub = true) :
    hasSub l sub = true := by
  cases l with
  | nil =>
    cases sub with
    | nil => rfl
    | cons b bs => simp [leadsWith] at h
  | cons a as =>
    cases sub with
    | nil => simp [hasSub, leadsWith]
    | cons b bs => simp [hasSub, h]

theorem strIncludes_append_left (p e : String) :
    strIncludes (p ++ e) p = true := by
  have h : (p ++ e).data = p.data ++ e.data := by
    cases p; cases e; rfl
  unfold strIncludes
  rw [h]
  exact hasSub_of_leadsWith _ _ (leadsWith_append _ _)

/-! ## Data model (backend-integration.js) -/

/-- The DOM elements the price-checker UI touches, keyed by their query
    selector targets; `none` = element absent. -/
structure Dom where
  booking : Option String
  expedia : Option String
  despegar : Option String
  uvc : Option String
  savings : Option String
  lastUpdated : Option String
deriving DecidableEq

/-- One entry of the auxiliary display list `formatted.hotels`. -/
structure HotelRow where
  name : String
  source : String
  price : JsNum
  url : String
deriving DecidableEq

/-- The canonical per-source price map `formatted.prices`. -/
structure SourcePrices where
  booking : JsNum
  expedia : JsNum
  hotels : JsNum
  despegar : JsNum
deriving DecidableEq

/-- The `priceData` shape consumed by `updatePriceCheckerUI` and produced
    by both `formatCacheEntry` and `formatBackendPrices`. -/
structure PriceData where
  destination : String
  checkin : String
  checkout : String
  nights : JsNum
  timestamp : String
  prices : SourcePrices
  hotels : List HotelRow
  lowestPrice : JsNum
  averagePrice : JsNum
deriving DecidableEq

/-- Cache JSON `entry.sources`: each field models `sources?.name?.price`. -/
structure CacheSources where
  booking : Option ℚ
  expedia : Option ℚ
  hotels : Option ℚ
  despegar : Option ℚ
deriving DecidableEq

/-- Cache JSON `entry.metrics`. -/
structure CacheMetrics where
  lowest_price : Option ℚ
  average_price : Option ℚ
deriving DecidableEq

/-- One entry of `prices-cache.json` (also the shape `generateEntry`
    returns in the refresh function, where `generated_at` is absent). -/
structure CacheEntry where
  destination : String
  checkin : Option String
  checkout : Option String
  nights : Option ℚ
  generated_at : Option String
  sources : Option CacheSources
  metrics : Option CacheMetrics
deriving DecidableEq

/-- The loaded cache snapshot; `entries = none` models a value on which
    `Array.isArray(cache.entries)` is false. -/
structure Cache where
  generated_at : Option String
  entries : Option (List CacheEntry)
deriving DecidableEq

/-- One element of the backend response array `backendData.results`. -/
structure BackendResult where
  source : String
  hotel_name : String
  price_per_night : JsNum
  url : String
deriving DecidableEq

/-- The backend success payload consumed by `formatBackendPrices`. -/
structure BackendData where
  destination : String
  checkin : String
  checkout : String
  nights : JsNum
  timestamp : String
  results : List BackendResult
  lowest_price : JsNum
  average_price : JsNum
deriving DecidableEq

/-- `BACKEND_CONFIG`, with the window-dependent fields as data. -/
structure Config where
  isGithubPages : Bool
  mode : String
  apiUrlPrimary : Option String
  apiUrlFallback : Option String
deriving DecidableEq

/-- Parsed JSON error body of a non-success response (`{detail}`). -/
structure ErrBody where
  detail : Option String
deriving DecidableEq

/-- A response delivered by the `fetch` oracle.  `errBody` is the result
    of `response.json()` on the error path (`none` = the body failed to
    parse); `data` is the parsed success payload. -/
structure HttpResponse where
  ok : Bool
  errBody : Option ErrBody
  data : BackendData
deriving DecidableEq

/-- The JSON payload POSTed to `/check-prices`. -/
structure RequestBody where
  destination : String
  checkin : String
  checkout : String
  guests : ℚ
  rooms : ℚ
deriving DecidableEq

/-- A thrown JS exception: an explicit `throw new Error(msg)`, a
    `ReferenceError` from reading an identifier that is not in scope, or
    a `TypeError` (e.g. destructuring `null`). -/
inductive JsError where
  | thrown : String → JsError
  | referenceError : String → JsError
  | typeError : String → JsError
deriving DecidableEq

/-! ## Functions of backend-integration.js -/

/-- `resolveApiUrl()`. -/
def resolveApiUrl (c : Config) : Option String :=
  if c.isGithubPages || c.mode == "static" then none
  else jsOrStrOpt c.apiUrlPrimary c.apiUrlFallback

/-- `findCachedEntry(cache, destination, checkin, checkout)`: first
    entry matching the destination case-insensitively; the date
    arguments are accepted but unused. -/
def findCachedEntry (cache : Option Cache) (destination checkin checkout : String) :
    Option CacheEntry :=
  match cache with
  | none => none
  | some c =>
    match c.entries with
    | none => none
    | some es => es.find? fun e => strLower e.destination == strLower destination

/-- `formatCacheEntry(entry)`; `now` is the ISO string
    `new Date().toISOString()` would produce at the call. -/
def formatCacheEntry (now : String) (entry : CacheEntry) : PriceData :=
  { destination := entry.destination
    checkin := jsOrStr entry.checkin ""
    checkout := jsOrStr entry.checkout ""
    nights := some (numOr entry.nights 0)
    timestamp := jsOrStr entry.generated_at now
    prices :=
      { booking := some (numOr (entry.sources.bind CacheSources.booking) 0)
        expedia := some (numOr (entry.sources.bind CacheSources.expedia) 0)
        hotels := some (numOr (entry.sources.bind CacheSources.hotels) 0)
        despegar := some (numOr (entry.sources.bind CacheSources.despegar) 0) }
    hotels := []
    lowestPrice := some (numOr (entry.metrics.bind CacheMetrics.lowest_price) 0)
    averagePrice := some (numOr (entry.metrics.bind CacheMetrics.average_price) 0) }

/-- `getRealTimePrices(destination, checkin, checkout, guests, rooms)`.
    Returns the outcome together with the ordered list of `(url, body)`
    requests issued.  The endpoint suffix is
    `BACKEND_CONFIG.endpoints.checkPrices = "/check-prices"`; the
    `url.includes(BACKEND_CONFIG.apiUrlPrimary)` test coerces a null
    primary to the string `"null"` exactly as JS does. -/
def getRealTimePrices (c : Config) (net : String → RequestBody → HttpResponse)
    (destination checkin checkout : String) (guests rooms : ℚ) :
    Except JsError BackendData × List (String × RequestBody) :=
  if c.isGithubPages || c.mode == "static" || (resolveApiUrl c).isNone then
    (Except.error (JsError.thrown "Modo estático: sin backend disponible"), [])
  else
    let url := jsStringOfNullable (resolveApiUrl c) ++ "/check-prices"
    let requestBody : RequestBody :=
      { destination := destination, checkin := checkin, checkout := checkout
        guests := guests, rooms := rooms }
    let response := net url requestBody
    if !response.ok then
      if strIncludes url (jsStringOfNullable c.apiUrlPrimary) then
        let furl := jsStringOfNullable c.apiUrlFallback ++ "/check-prices"
        let fallbackResp := net furl requestBody
        if !fallbackResp.ok then
          (Except.error (JsError.thrown "Fallback también falló"),
            [(url, requestBody), (furl, requestBody)])
        else
          (Except.ok fallbackResp.data, [(url, requestBody), (furl, requestBody)])
      else
        let detail :=
          match response.errBody with
          | none => "Error desconocido"
          | some eb => jsOrStr eb.detail "Error al obtener precios"
        (Except.error (JsError.thrown detail), [(url, requestBody)])
    else
      (Except.ok response.data, [(url, requestBody)])

/-! ## UI formatting (updatePriceCheckerUI) -/

/-- The text written to a price element: `` `$${n.toFixed(0)}` ``. -/
def priceText (n : JsNum) : String :=
  "$" ++ (match n with
    | some q => toString (jsRound q)
    | none => "NaN")

/-- The text written to the savings element:
    `` `Ahorra $${savings.toFixed(0)} por noche` ``. -/
def savingsText (n : JsNum) : String :=
  "Ahorra $" ++ (match n with
    | some q => toString (jsRound q)
    | none => "NaN") ++ " por noche"

/-- `avgPublicPrice`: `priceData.averagePrice || (booking + expedia) / 2`. -/
def avgPublicPrice (p : PriceData) : JsNum :=
  jsOrNum p.averagePrice (jsHalf (jsAdd p.prices.booking p.prices.expedia))

/-- `uvcPrice = avgPublicPrice * (1 - uvcDiscount)` with
    `uvcDiscount = 0.35`. -/
def clubPrice (p : PriceData) : JsNum :=
  jsMul (avgPublicPrice p) (some (1 - 35 / 100))

/-- The savings value `priceData.lowestPrice - uvcPrice`. -/
def savingsValue (p : PriceData) : JsNum :=
  jsSub p.lowestPrice (clubPrice p)

/-- Step 1 of `updatePriceCheckerUI`: the booking element, written only
    when present and `priceData.prices.booking > 0`. -/
def setBookingEl (p : PriceData) (dom : Dom) : Dom :=
  if dom.booking.isSome && jsGtZero p.prices.booking then
    { dom with booking := some (priceText p.prices.booking) }
  else dom

/-- Step 2: the expedia element. -/
def setExpediaEl (p : PriceData) (dom : Dom) : Dom :=
  if dom.expedia.isSome && jsGtZero p.prices.expedia then
    { dom with expedia := some (priceText p.prices.expedia) }
  else dom

/-- Step 3: the despegar element. -/
def setDespegarEl (p : PriceData) (dom : Dom) : Dom :=
  if dom.despegar.isSome && jsGtZero p.prices.despegar then
    { dom with despegar := some (priceText p.prices.despegar) }
  else dom

/-- Step 4: the UVC club-price element, written whenever present. -/
def setUvcEl (p : PriceData) (dom : Dom) : Dom :=
  if dom.uvc.isSome then { dom with uvc := some (priceText (clubPrice p)) }
  else dom

/-- Step 5: the savings element, written when present and
    `priceData.lowestPrice` is truthy. -/
def setSavingsEl (p : PriceData) (dom : Dom) : Dom :=
  if dom.savings.isSome && jsTruthy p.lowestPrice then
    { dom with savings := some (savingsText (savingsValue p)) }
  else dom

/-- `updatePriceCheckerUI(priceData)`: the five DOM writes in source
    order. -/
def updatePriceCheckerUI (p : PriceData) (dom : Dom) : Dom :=
  setSavingsEl p (setUvcEl p (setDespegarEl p (setExpediaEl p (setBookingEl p dom))))

/-! ## formatBackendPrices -/

/-- The body of the `backendData.results.forEach` loop: case-insensitive
    substring dispatch on the source label, first match wins; a result
    matching none of `booking`, `expedia`, `hotels` leaves the
    accumulator untouched (there is no `despegar` branch). -/
def applyBackendResult (acc : PriceData) (r : BackendResult) : PriceData :=
  let source := strLower r.source
  if strIncludes source "booking" then
    { acc with
      prices := { acc.prices with booking := r.price_per_night }
      hotels := acc.hotels ++
        [{ name := r.hotel_name, source := "Booking.com"
           price := r.price_per_night, url := r.url }] }
  else if strIncludes source "expedia" then
    { acc with
      prices := { acc.prices with expedia := r.price_per_night }
      hotels := acc.hotels ++
        [{ name := r.hotel_name, source := "Expedia"
           price := r.price_per_night, url := r.url }] }
  else if strIncludes source "hotels" then
    { acc with
      prices := { acc.prices with hotels := r.price_per_night }
      hotels := acc.hotels ++
        [{ name := r.hotel_name, source := "Hotels.com"
           price := r.price_per_night, url := r.url }] }
  else acc

/-- `formatBackendPrices(backendData)`. -/
def formatBackendPrices (d : BackendData) : PriceData :=
  d.results.foldl applyBackendResult
    { destination := d.destination
      checkin := d.checkin
      checkout := d.checkout
      nights := d.nights
      timestamp := d.timestamp
      prices := { booking := some 0, expedia := some 0
                  hotels := some 0, despegar := some 0 }
      hotels := []
      lowestPrice := d.lowest_price
      averagePrice := d.average_price }

/-! ## updatePriceCheckerWithRealData -/

/-- Write the `pc-last-updated` indicator, if that element exists. -/
def setLastUpdated (dom : Dom) (txt : String) : Dom :=
  match dom.lastUpdated with
  | some _ => { dom with lastUpdated := some txt }
  | none => dom

/-- `updatePriceCheckerWithRealData(destination, checkin, checkout)`.

    `cache` is the snapshot `loadPricesCache()` delivers (`none` on any
    load failure — that function swallows its own errors), `now` the
    current ISO timestamp, `fmtLive` the locale rendering of the live
    indicator line built from `backendData.timestamp`.

    The source declares `let formattedCached = null` INSIDE the `try`
    block (line 230) and the `catch` block (line 266) executes
    `return formattedCached`.  A `let` binding is block-scoped to the
    `try` block, so that read is an out-of-scope identifier reference:
    the catch handler itself throws a `ReferenceError`, which rejects
    the async function instead of returning the cached result.  The
    error branch below models exactly that. -/
def updatePriceCheckerWithRealData (c : Config) (net : String → RequestBody → HttpResponse)
    (cache : Option Cache) (now : String) (fmtLive : String → String)
    (destination checkin checkout : String) (dom : Dom) :
    Except JsError (Option PriceData) × Dom × List (String × RequestBody) :=
  let dom := setLastUpdated dom "🔄 Buscando precios en tiempo real..."
  let cachedEntry := findCachedEntry cache destination checkin checkout
  let formattedCached := cachedEntry.map (formatCacheEntry now)
  let dom :=
    match formattedCached with
    | some f =>
      setLastUpdated (updatePriceCheckerUI f dom)
        "⚡ Precios rápidos (cache) • Actualizando..."
    | none => dom
  if c.isGithubPages || c.mode == "static" then
    (Except.ok formattedCached, setLastUpdated dom "⚡ Modo estático (cache)", [])
  else if (resolveApiUrl c).isSome then
    match getRealTimePrices c net destination checkin checkout 2 1 with
    | (Except.ok backendData, log) =>
      let formattedPrices := formatBackendPrices backendData
      let dom := updatePriceCheckerUI formattedPrices dom
      let dom := setLastUpdated dom (fmtLive backendData.timestamp)
      (Except.ok (some formattedPrices), dom, log)
    | (Except.error _, log) =>
      let dom := setLastUpdated dom
        (if c.isGithubPages then "⚡ Sólo cache disponible"
         else "⚠️ Error backend • usando cache")
      (Except.error (JsError.referenceError "formattedCached"), dom, log)
  else
    (Except.ok formattedCached, dom, [])

/-! ## netlify/functions/refresh-prices.js -/

/-- A preset destination/date triple. -/
structure Preset where
  destination : String
  checkin : String
  checkout : String
deriving DecidableEq

/-- The `PRESETS` constant. -/
def PRESETS : List Preset :=
  [ { destination := "Cancun", checkin := "2025-06-01", checkout := "2025-06-05" }
  , { destination := "Cabo San Lucas", checkin := "2025-06-10", checkout := "2025-06-14" }
  , { destination := "Punta Cana", checkin := "2025-07-01", checkout := "2025-07-06" } ]

/-- `BASE_PRICE_BY_DEST` lookup (by already-lowercased key). -/
def basePriceByDest (key : String) : Option ℚ :=
  if key == "cancun" then some 180
  else if key == "cabo san lucas" then some 210
  else if key == "punta cana" then some 160
  else none

/-- `nights(checkin, checkout)`; `dateMs` models `new Date(s).getTime()`
    in milliseconds. -/
def nightsBetween (dateMs : String → ℚ) (checkin checkout : String) : ℤ :=
  jsRound ((dateMs checkout - dateMs checkin) / (1000 * 60 * 60 * 24))

/-- `generateEntry(dest, checkin, checkout)`.  `rand` supplies the
    `Math.random()` draw for each source name; the four sources are
    visited in the insertion order of `SOURCE_VARIATION`
    (booking, expedia, hotels, despegar) with their variance bands. -/
def generateEntry (dateMs : String → ℚ) (rand : String → ℚ)
    (dest checkin checkout : String) : CacheEntry :=
  let base := numOr (basePriceByDest (strLower dest)) 190
  let priceFor := fun (name : String) (lo hi : ℚ) =>
    ((jsRound (base * (lo + rand name * (hi - lo))) : ℤ) : ℚ)
  let pBooking := priceFor "booking" (97 / 100) (105 / 100)
  let pExpedia := priceFor "expedia" (95 / 100) (103 / 100)
  let pHotels := priceFor "hotels" (98 / 100) (106 / 100)
  let pDespegar := priceFor "despegar" (96 / 100) (104 / 100)
  let lowest := min pBooking (min pExpedia (min pHotels pDespegar))
  let avg := jsFix2 ((pBooking + pExpedia + pHotels + pDespegar) / 4)
  { destination := dest
    checkin := some checkin
    checkout := some checkout
    nights := some ((nightsBetween dateMs checkin checkout : ℤ) : ℚ)
    generated_at := none
    sources := some { booking := some pBooking, expedia := some pExpedia
                      hotels := some pHotels, despegar := some pDespegar }
    metrics := some { lowest_price := some lowest, average_price := some avg } }

/-- The parsed request body `{destination?, checkin?, checkout?, all?}`
    (`all` destructures with default `false`). -/
structure RefreshBody where
  destination : Option String
  checkin : Option String
  checkout : Option String
  all : Bool
deriving DecidableEq

/-- The value `JSON.parse(event.body)` delivers when it does not throw.
    `value b` is any non-null result: an object contributes its fields,
    and a non-object primitive (number, string, boolean) destructures to
    all-undefined fields, i.e. a `RefreshBody` with absent fields and
    `all = false`.  `nullValue` is the JSON literal `null`, which parses
    successfully but cannot be destructured. -/
inductive ParsedBody where
  | value : RefreshBody → ParsedBody
  | nullValue : ParsedBody
deriving DecidableEq

/-- The incoming event: the two header spellings consulted, and the raw
    body.  `body = none` models a falsy `event.body` (absent/empty, so
    `{}` is used); `body = some none` a present body on which
    `JSON.parse` throws (the catch also substitutes `{}`);
    `body = some (some pb)` a body that parsed to `pb`. -/
structure RefreshEvent where
  authHeaderLower : Option String
  authHeaderCap : Option String
  body : Option (Option ParsedBody)
deriving DecidableEq

/-- A handler response: an error status with its JSON error message, or
    the 200 payload `{generated_at, entries, source, count}`. -/
inductive RefreshResponse where
  | failure : Nat → String → RefreshResponse
  | success : String → List CacheEntry → String → Nat → RefreshResponse
deriving DecidableEq

/-- `event.headers['authorization'] || event.headers['Authorization']`. -/
def authHeaderOf (ev : RefreshEvent) : Option String :=
  jsOrStrOpt ev.authHeaderLower ev.authHeaderCap

/-- `PRESETS.map(p => generateEntry(p.destination, p.checkin, p.checkout))`,
    with an independent randomness stream per preset index. -/
def genAllPresets (dateMs : String → ℚ) (rand : Nat → String → ℚ) : List CacheEntry :=
  (PRESETS.enum).map fun pi =>
    generateEntry dateMs (rand pi.1) pi.2.destination pi.2.checkin pi.2.checkout

/-- `exports.handler` of refresh-prices.js.  `secret` is
    `process.env.REFRESH_TOKEN` (`none` = unset; an empty string is
    falsy, hence also "missing"); `now` is `new Date().toISOString()`.

    After the auth ladder the source runs
    `const { destination, checkin, checkout, all = false } = body;`.
    When the body text is the JSON literal `null`, `JSON.parse`
    SUCCEEDS (so the catch that substitutes `{}` does not fire) and the
    destructuring of `null` throws a TypeError that escapes the handler
    — hence the `Except` result type, with `Except.error` for that
    rejection. -/
def refreshHandler (secret : Option String) (dateMs : String → ℚ)
    (rand : Nat → String → ℚ) (now : String) (ev : RefreshEvent) :
    Except JsError RefreshResponse :=
  let auth := authHeaderOf ev
  if !(strTruthy secret) then
    Except.ok (RefreshResponse.failure 500 "Missing REFRESH_TOKEN env var")
  else if !(strTruthy auth) || !(strStartsWith (jsOrStr auth "") "Bearer ") then
    Except.ok (RefreshResponse.failure 401 "Missing Bearer token")
  else
    let provided := strTrim (strDrop (jsOrStr auth "") 7)
    if provided != jsOrStr secret "" then
      Except.ok (RefreshResponse.failure 403 "Invalid token")
    else
      let body : ParsedBody :=
        match ev.body with
        | some (some pb) => pb
        | _ => ParsedBody.value
            { destination := none, checkin := none, checkout := none, all := false }
      match body with
      | ParsedBody.nullValue =>
        Except.error (JsError.typeError "Cannot destructure property of null")
      | ParsedBody.value b =>
        let entries :=
          if b.all then genAllPresets dateMs rand
          else if strTruthy b.destination && strTruthy b.checkin
              && strTruthy b.checkout then
            [generateEntry dateMs (rand 0) (jsOrStr b.destination "")
              (jsOrStr b.checkin "") (jsOrStr b.checkout "")]
          else genAllPresets dateMs rand
        Except.ok (RefreshResponse.success now entries "refresh-function" entries.length)

/-! ## Concrete fixtures -/

/-- The GitHub-Pages configuration: static mode, no endpoints. -/
def staticCfg : Config :=
  { isGithubPages := true, mode := "static", apiUrlPrimary := none, apiUrlFallback := none }

/-- A hybrid configuration with both endpoints configured. -/
def hybridCfg : Config :=
  { isGithubPages := false, mode := "hybrid"
    apiUrlPrimary := some "http://p", apiUrlFallback := some "http://f" }

/-- A placeholder success payload (irrelevant on failing paths). -/
def emptyBackend : BackendData :=
  { destination := "", checkin := "", checkout := "", nights := some 0, timestamp := ""
    results := [], lowest_price := some 0, average_price := some 0 }

/-- A network on which both endpoints answer non-success; the fallback
    response carries the structured detail `"fallback-detail"`. -/
def failNet : String → RequestBody → HttpResponse := fun url _ =>
  if url = "http://p/check-prices" then
    { ok := false, errBody := some { detail := some "primary-detail" }, data := emptyBackend }
  else
    { ok := false, errBody := some { detail := some "fallback-detail" }, data := emptyBackend }

/-- The cache entry of the specification scenario: Cancun with booking
    200, expedia 190, lowest 190, average 195. -/
def cancunEntry : CacheEntry :=
  { destination := "Cancun"
    checkin := some "2025-06-01", checkout := some "2025-06-05"
    nights := some 4, generated_at := some "2025-05-01T00:00:00Z"
    sources := some { booking := some 200, expedia := some 190
                      hotels := none, despegar := none }
    metrics := some { lowest_price := some 190, average_price := some 195 } }

/-- A cache snapshot holding exactly the Cancun entry. -/
def cancunCache : Option Cache :=
  some { generated_at := some "2025-05-01T00:00:00Z", entries := some [cancunEntry] }

/-- A page with no price-checker elements at all. -/
def emptyDom : Dom :=
  { booking := none, expedia := none, despegar := none
    uvc := none, savings := none, lastUpdated := none }

/-! ## Shared lemmas about the UI writer -/

theorem jsOrStr_some_empty (a : String) : jsOrStr (some a) "" = a := by
  unfold jsOrStr
  split <;> simp_all

theorem setBookingEl_proj (p : PriceData) (d : Dom) :
    (setBookingEl p d).booking
        = (if d.booking.isSome && jsGtZero p.prices.booking
            then some (priceText p.prices.booking) else d.booking)
      ∧ (setBookingEl p d).expedia = d.expedia
      ∧ (setBookingEl p d).despegar = d.despegar
      ∧ (setBookingEl p d).uvc = d.uvc
      ∧ (setBookingEl p d).savings = d.savings := by
  unfold setBookingEl
  split <;> simp_all

theorem setExpediaEl_proj (p : PriceData) (d : Dom) :
    (setExpediaEl p d).expedia
        = (if d.expedia.isSome && jsGtZero p.prices.expedia
            then some (priceText p.prices.expedia) else d.expedia)
      ∧ (setExpediaEl p d).booking = d.booking
      ∧ (setExpediaEl p d).despegar = d.despegar
      ∧ (setExpediaEl p d).uvc = d.uvc
      ∧ (setExpediaEl p d).savings = d.savings := by
  unfold setExpediaEl
  split <;> simp_all

theorem setDespegarEl_proj (p : PriceData) (d : Dom) :
    (setDespegarEl p d).despegar
        = (if d.despegar.isSome && jsGtZero p.prices.despegar
            then some (priceText p.prices.despegar) else d.despegar)
      ∧ (setDespegarEl p d).booking = d.booking
      ∧ (setDespegarEl p d).expedia = d.expedia
      ∧ (setDespegarEl p d).uvc = d.uvc
      ∧ (setDespegarEl p d).savings = d.savings := by
  unfold setDespegarEl
  split <;> simp_all

theorem setUvcEl_proj (p : PriceData) (d : Dom) :
    (setUvcEl p d).uvc
        = (if d.uvc.isSome then some (priceText (clubPrice p)) else d.uvc)
      ∧ (setUvcEl p d).booking = d.booking
      ∧ (setUvcEl p d).expedia = d.expedia
      ∧ (setUvcEl p d).despegar = d.despegar
      ∧ (setUvcEl p d).savings = d.savings := by
  unfold setUvcEl
  split <;> simp_all

theorem setSavingsEl_proj (p : PriceData) (d : Dom) :
    (setSavingsEl p d).savings
        = (if d.savings.isSome && jsTruthy p.lowestPrice
            then some (savingsText (savingsValue p)) else d.savings)
      ∧ (setSavingsEl p d).booking = d.booking
      ∧ (setSavingsEl p d).expedia = d.expedia
      ∧ (setSavingsEl p d).despegar = d.despegar
      ∧ (setSavingsEl p d).uvc = d.uvc := by
  unfold setSavingsEl
  split <;> simp_all

theorem updateUI_booking (p : PriceData) (d : Dom) :
    (updatePriceCheckerUI p d).booking
      = (if d.booking.isSome && jsGtZero p.prices.booking
          then some (priceText p.prices.booking) else d.booking) := by
  unfold updatePriceCheckerUI
  rw [(setSavingsEl_proj _ _).2.1, (setUvcEl_proj _ _).2.1,
    (setDespegarEl_proj _ _).2.1, (setExpediaEl_proj _ _).2.1,
    (setBookingEl_proj _ _).1]

theorem updateUI_expedia (p : PriceData) (d : Dom) :
    (updatePriceCheckerUI p d).expedia
      = (if d.expedia.isSome && jsGtZero p.prices.expedia
          then some (priceText p.prices.expedia) else d.expedia) := by
  unfold updatePriceCheckerUI
  rw [(setSavingsEl_proj _ _).2.2.1, (setUvcEl_proj _ _).2.2.1,
    (setDespegarEl_proj _ _).2.2.1, (setExpediaEl_proj _ _).1,
    (setBookingEl_proj _ _).2.1]

theorem updateUI_despegar (p : PriceData) (d : Dom) :
    (updatePriceCheckerUI p d).despegar
      = (if d.despegar.isSome && jsGtZero p.prices.despegar
          then some (priceText p.prices.despegar) else d.despegar) := by
  unfold updatePriceCheckerUI
  rw [(setSavingsEl_proj _ _).2.2.2.1, (setUvcEl_proj _ _).2.2.2.1,
    (setDespegarEl_proj _ _).1, (setExpediaEl_proj _ _).2.2.1,
    (setBookingEl_proj _ _).2.2.1]

theorem updateUI_uvc (p : PriceData) (d : Dom) :
    (updatePriceCheckerUI p d).uvc
      = (if d.uvc.isSome then some (priceText (clubPrice p)) else d.uvc) := by
  unfold updatePriceCheckerUI
  rw [(setSavingsEl_proj _ _).2.2.2.2, (setUvcEl_proj _ _).1,
    (setDespegarEl_proj _ _).2.2.2.1, (setExpediaEl_proj _ _).2.2.2.1,
    (setBookingEl_proj _ _).2.2.2.1]

theorem updateUI_savings (p : PriceData) (d : Dom) :
    (updatePriceCheckerUI p d).savings
      = (if d.savings.isSome && jsTruthy p.lowestPrice
          then some (savingsText (savingsValue p)) else d.savings) := by
  unfold updatePriceCheckerUI
  rw [(setSavingsEl_proj _ _).1, (setUvcEl_proj _ _).2.2.2.2,
    (setDespegarEl_proj _ _).2.2.2.2, (setExpediaEl_proj _ _).2.2.2.2,
    (setBookingEl_proj _ _).2.2.2.2]

/-! ## Claim theorems -/

/-- C7: cache lookup returns the first entry whose destination matches
    the queried destination case-insensitively (none when no entry
    matches), its result is invariant under the case of the queried
    destination and under the checkin/checkout arguments, and in
    particular looking up "CANCUN" and "cancun" agree on every
    snapshot. -/
theorem findCachedEntry_case_insensitive :
    (∀ (cache : Option Cache) (d1 d2 ci1 co1 ci2 co2 : String),
        strLower d1 = strLower d2 →
        findCachedEntry cache d1 ci1 co1 = findCachedEntry cache d2 ci2 co2)
  ∧ (∀ (cache : Option Cache) (ci1 co1 ci2 co2 : String),
        findCachedEntry cache "CANCUN" ci1 co1 = findCachedEntry cache "cancun" ci2 co2)
  ∧ (∀ (cache : Option Cache) (d ci co : String) (e : CacheEntry),
        findCachedEntry cache d ci co = some e →
        strLower e.destination = strLower d)
  ∧ (∀ (g : Option String) (es : List CacheEntry) (d ci co : String),
        findCachedEntry (some { generated_at := g, entries := some es }) d ci co = none ↔
          ∀ e ∈ es, strLower e.destination ≠ strLower d)
  ∧ (∀ (g : Option String) (e : CacheEntry) (es : List CacheEntry) (d ci co : String),
        strLower e.destination = strLower d →
        findCachedEntry (some { generated_at := g, entries := some (e :: es) }) d ci co
          = some e) := by
  have hinv : ∀ (cache : Option Cache) (d1 d2 ci1 co1 ci2 co2 : String),
      strLower d1 = strLower d2 →
      findCachedEntry cache d1 ci1 co1 = findCachedEntry cache d2 ci2 co2 := by
    intro cache d1 d2 ci1 co1 ci2 co2 h
    cases cache with
    | none => rfl
    | some c =>
      cases hc : c.entries with
      | none => simp [findCachedEntry, hc]
      | some es => simp [findCachedEntry, hc, h]
  refine ⟨hinv, ?_, ?_, ?_, ?_⟩
  · intro cache ci1 co1 ci2 co2
    exact hinv cache "CANCUN" "cancun" ci1 co1 ci2 co2 (by decide)
  · intro cache d ci co e h
    cases cache with
    | none => simp [findCachedEntry] at h
    | some c =>
      cases hc : c.entries with
      | none => simp [findCachedEntry, hc] at h
      | some es =>
        simp only [findCachedEntry, hc] at h
        have := List.find?_some h
        exact eq_of_beq this
  · intro g es d ci co
    simp [findCachedEntry, List.find?_eq_none]
  · intro g e es d ci co h
    simp [findCachedEntry, List.find?_cons, h]

/-- C7 witness: the case-invariance applied at a concrete snapshot and
    destinations. -/
theorem findCachedEntry_case_insensitive_w :
    findCachedEntry cancunCache "CAncUn" "" "" = findCachedEntry cancunCache "cancun" "x" "y" :=
  findCachedEntry_case_insensitive.1 cancunCache "CAncUn" "cancun" "" "" "x" "y" (by decide)

/-- C10: the per-source price elements (booking, expedia, despegar) are
    left unchanged whenever the corresponding price is missing, zero or
    negative; an element present in the page is overwritten exactly when
    its price is strictly positive; and the club-price element is
    overwritten unconditionally (with the computed club price) whenever
    it is present. -/
theorem updatePriceCheckerUI_frame :
    ∀ (p : PriceData) (dom : Dom),
    ((p.prices.booking = none ∨ ∃ q, p.prices.booking = some q ∧ q ≤ 0) →
        (updatePriceCheckerUI p dom).booking = dom.booking)
  ∧ ((p.prices.expedia = none ∨ ∃ q, p.prices.expedia = some q ∧ q ≤ 0) →
        (updatePriceCheckerUI p dom).expedia = dom.expedia)
  ∧ ((p.prices.despegar = none ∨ ∃ q, p.prices.despegar = some q ∧ q ≤ 0) →
        (updatePriceCheckerUI p dom).despegar = dom.despegar)
  ∧ (∀ t, dom.booking = some t → jsGtZero p.prices.booking = true →
        (updatePriceCheckerUI p dom).booking = some (priceText p.prices.booking))
  ∧ (∀ t, dom.expedia = some t → jsGtZero p.prices.expedia = true →
        (updatePriceCheckerUI p dom).expedia = some (priceText p.prices.expedia))
  ∧ (∀ t, dom.despegar = some t → jsGtZero p.prices.despegar = true →
        (updatePriceCheckerUI p dom).despegar = some (priceText p.prices.despegar))
  ∧ (∀ t, dom.uvc = some t →
        (updatePriceCheckerUI p dom).uvc = some (priceText (clubPrice p))) := by
  intro p dom
  have hz : ∀ n : JsNum, (n = none ∨ ∃ q, n = some q ∧ q ≤ 0) → jsGtZero n = false := by
    intro n h
    rcases h with h | ⟨q, hq, hle⟩
    · simp [h, jsGtZero]
    · simp [hq, jsGtZero]
      exact hle
  refine ⟨?_, ?_, ?_, ?_, ?_, ?_, ?_⟩
  · intro h
    rw [updateUI_booking, hz _ h]
    simp
  · intro h
    rw [updateUI_expedia, hz _ h]
    simp
  · intro h
    rw [updateUI_despegar, hz _ h]
    simp
  · intro t ht hpos
    rw [updateUI_booking, ht, hpos]
    simp
  · intro t ht hpos
    rw [updateUI_expedia, ht, hpos]
    simp
  · intro t ht hpos
    rw [updateUI_despegar, ht, hpos]
    simp
  · intro t ht
    rw [updateUI_uvc, ht]
    simp

/-- C10 witness: a page with a booking element and a zero booking price
    keeps the old booking text, while the club element is rewritten. -/
theorem updatePriceCheckerUI_frame_w :
    (updatePriceCheckerUI
        { destination := "Cancun", checkin := "", checkout := "", nights := some 4
          timestamp := ""
          prices := { booking := some 0, expedia := some 190
                      hotels := some 0, despegar := some 0 }
          hotels := [], lowestPrice := some 190, averagePrice := some 195 }
        { booking := some "$201", expedia := none, despegar := none
          uvc := some "$0", savings := none, lastUpdated := none }).booking = some "$201"
  ∧ (updatePriceCheckerUI
        { destination := "Cancun", checkin := "", checkout := "", nights := some 4
          timestamp := ""
          prices := { booking := some 0, expedia := some 190
                      hotels := some 0, despegar := some 0 }
          hotels := [], lowestPrice := some 190, averagePrice := some 195 }
        { booking := some "$201", expedia := none, despegar := none
          uvc := some "$0", savings := none, lastUpdated := none }).uvc
      = some (priceText (clubPrice
        { destination := "Cancun", checkin := "", checkout := "", nights := some 4
          timestamp := ""
          prices := { booking := some 0, expedia := some 190
                      hotels := some 0, despegar := some 0 }
          hotels := [], lowestPrice := some 190, averagePrice := some 195 })) :=
  ⟨(updatePriceCheckerUI_frame _ _).1 (Or.inr ⟨0, rfl, le_refl 0⟩),
    (updatePriceCheckerUI_frame _ _).2.2.2.2.2.2 "$0" rfl⟩

/-- A price-data value whose lowest price is negative (and hence truthy
    in JS), together with a page that has a savings element. -/
def negLowestData : PriceData :=
  { destination := "Cancun", checkin := "", checkout := "", nights := some 4
    timestamp := ""
    prices := { booking := some 200, expedia := some 190
                hotels := some 0, despegar := some 0 }
    hotels := [], lowestPrice := some (-1), averagePrice := some 195 }

/-- A page whose savings element currently reads "old". -/
def savingsDom : Dom :=
  { booking := none, expedia := none, despegar := none
    uvc := none, savings := some "old", lastUpdated := none }

/-- C6 counterexample: with `lowestPrice = -1` (known but NOT strictly
    positive) the savings element is still overwritten, so "reported iff
    lowest price is known and strictly greater than 0" fails. -/
theorem savings_negative_lowest_cex :
    negLowestData.lowestPrice = some (-1)
  ∧ ¬(0 < (-1 : ℚ))
  ∧ (updatePriceCheckerUI negLowestData savingsDom).savings ≠ some "old"
  ∧ (updatePriceCheckerUI negLowestData savingsDom).savings
      = some (savingsText (savingsValue negLowestData)) := by
  refine ⟨rfl, by norm_num, ?_, ?_⟩
  · rw [updateUI_savings]
    decide
  · rw [updateUI_savings]
    rfl

/-- C6 (amended): a savings figure is reported iff the lowest price is
    a number distinct from 0 (JS truthiness — negative values
    included), and the reported savings equals lowest price minus the
    computed club price. -/
theorem savings_reported_iff :
    ∀ (p : PriceData) (dom : Dom) (s : String),
    (jsTruthy p.lowestPrice = true ↔ ∃ q, p.lowestPrice = some q ∧ q ≠ 0)
  ∧ (dom.savings = some s →
      (updatePriceCheckerUI p dom).savings
        = (if jsTruthy p.lowestPrice then some (savingsText (savingsValue p))
            else some s))
  ∧ savingsValue p = jsSub p.lowestPrice (clubPrice p) := by
  intro p dom s
  refine ⟨?_, ?_, rfl⟩
  · cases hl : p.lowestPrice with
    | none => simp [jsTruthy]
    | some q =>
      simp [jsTruthy]
  · intro hs
    rw [updateUI_savings, hs]
    cases jsTruthy p.lowestPrice <;> simp

/-- C6 witness: the characterization applied at a concrete price-data
    value and page. -/
theorem savings_reported_iff_w :
    (updatePriceCheckerUI negLowestData savingsDom).savings
      = (if jsTruthy negLowestData.lowestPrice
          then some (savingsText (savingsValue negLowestData)) else some "old") :=
  (savings_reported_iff negLowestData savingsDom "old").2.1 rfl

/-- A price-data value with `average_price = 0` (which is ≥ 0): the code
    falls back to `(booking + expedia) / 2`, so the displayed club price
    is not `average_price × 0.65`. -/
def zeroAvgData : PriceData :=
  { destination := "Cancun", checkin := "", checkout := "", nights := some 4
    timestamp := ""
    prices := { booking := some 100, expedia := some 100
                hotels := some 0, despegar := some 0 }
    hotels := [], lowestPrice := some 90, averagePrice := some 0 }

/-- C5 counterexample: at `average_price = 0 ≥ 0` the computed club
    price is 65 (from the booking/expedia mean fallback), not
    `0 × 0.65 = 0`. -/
theorem clubPrice_zero_avg_cex :
    zeroAvgData.averagePrice = some 0
  ∧ (0 : ℚ) ≤ 0
  ∧ clubPrice zeroAvgData = some 65
  ∧ clubPrice zeroAvgData ≠ some ((0 : ℚ) * (13 / 20)) := by
  have h65 : clubPrice zeroAvgData = some 65 := by
    simp [clubPrice, avgPublicPrice, jsOrNum, jsTruthy, jsMul, jsHalf, jsAdd, zeroAvgData]
    norm_num
  refine ⟨rfl, le_refl 0, h65, ?_⟩
  rw [h65]
  intro hcon
  simp at hcon

/-- C5 (amended): whenever `average_price` is a nonzero number the
    computed club (UVC) price is exactly `average_price × 0.65` (the DOM
    then shows it rounded to whole dollars); when `average_price` is 0
    or absent the code instead averages booking and expedia.  For the
    specification scenario (Cancun cache entry, static mode) the
    resolution returns the cache-derived value, whose club price is
    126.75 = 507/4 and savings 63.25 = 253/4. -/
theorem clubPrice_formula :
    (∀ (p : PriceData) (a : ℚ), p.averagePrice = some a → a ≠ 0 →
        clubPrice p = some (a * (13 / 20)))
  ∧ (∀ (net : String → RequestBody → HttpResponse) (fmtLive : String → String)
        (now ci co : String) (dom : Dom),
        (updatePriceCheckerWithRealData staticCfg net cancunCache now fmtLive
            "Cancun" ci co dom).1
          = Except.ok (some (formatCacheEntry now cancunEntry))
        ∧ clubPrice (formatCacheEntry now cancunEntry) = some (507 / 4)
        ∧ savingsValue (formatCacheEntry now cancunEntry) = some (253 / 4)) := by
  constructor
  · intro p a hp ha
    simp [clubPrice, avgPublicPrice, jsOrNum, jsTruthy, hp, ha, jsMul]
    norm_num
  · intro net fmtLive now ci co dom
    have hfind : findCachedEntry cancunCache "Cancun" ci co = some cancunEntry := by
      simp [findCachedEntry, cancunCache, cancunEntry, List.find?_cons]
    have hclub : clubPrice (formatCacheEntry now cancunEntry) = some (507 / 4) := by
      simp [clubPrice, avgPublicPrice, jsOrNum, jsTruthy, jsMul,
        formatCacheEntry, cancunEntry, numOr]
      norm_num
    refine ⟨?_, hclub, ?_⟩
    · simp only [updatePriceCheckerWithRealData, hfind]
      simp [staticCfg]
    · simp only [savingsValue, hclub]
      norm_num [jsSub, formatCacheEntry, cancunEntry, numOr]

/-- C5 witness: the club-price formula applied to the Cancun entry. -/
theorem clubPrice_formula_w :
    clubPrice (formatCacheEntry "2025-01-01" cancunEntry) = some (195 * (13 / 20)) :=
  clubPrice_formula.1 (formatCacheEntry "2025-01-01" cancunEntry) 195
    (by simp [formatCacheEntry, cancunEntry, numOr]) (by norm_num)

/-! ## Shared lemmas about formatBackendPrices -/

theorem applyBackendResult_despegar (acc : PriceData) (r : BackendResult) :
    (applyBackendResult acc r).prices.despegar = acc.prices.despegar := by
  unfold applyBackendResult
  dsimp only
  split_ifs <;> rfl

theorem foldl_applyBackendResult_despegar (rs : List BackendResult) (acc : PriceData) :
    (rs.foldl applyBackendResult acc).prices.despegar = acc.prices.despegar := by
  induction rs generalizing acc with
  | nil => rfl
  | cons r rs ih => rw [List.foldl_cons, ih, applyBackendResult_despegar]

theorem applyBackendResult_unmatched (acc : PriceData) (r : BackendResult)
    (h1 : strIncludes (strLower r.source) "booking" = false)
    (h2 : strIncludes (strLower r.source) "expedia" = false)
    (h3 : strIncludes (strLower r.source) "hotels" = false) :
    applyBackendResult acc r = acc := by
  unfold applyBackendResult
  dsimp only
  simp [h1, h2, h3]

theorem foldl_applyBackendResult_unmatched (rs : List BackendResult) (acc : PriceData)
    (h : ∀ r ∈ rs,
        strIncludes (strLower r.source) "booking" = false
      ∧ strIncludes (strLower r.source) "expedia" = false
      ∧ strIncludes (strLower r.source) "hotels" = false) :
    rs.foldl applyBackendResult acc = acc := by
  induction rs generalizing acc with
  | nil => rfl
  | cons r rs ih =>
    have hr := h r (by simp)
    rw [List.foldl_cons, applyBackendResult_unmatched acc r hr.1 hr.2.1 hr.2.2]
    exact ih acc fun x hx => h x (by simp [hx])

/-- A backend payload whose only result is labelled "Despegar". -/
def despegarBackend : BackendData :=
  { destination := "Cancun", checkin := "2025-06-01", checkout := "2025-06-05"
    nights := some 4, timestamp := "t"
    results := [{ source := "Despegar", hotel_name := "Hotel D"
                  price_per_night := some 100, url := "u" }]
    lowest_price := some 100, average_price := some 100 }

/-- C3 counterexample: a result labelled "Despegar" is neither mapped to
    the canonical despegar key (which stays 0) nor appended to the
    auxiliary hotels display list — it is dropped entirely. -/
theorem formatBackendPrices_despegar_cex :
    (formatBackendPrices despegarBackend).prices.despegar = some 0
  ∧ (formatBackendPrices despegarBackend).hotels = []
  ∧ ¬((formatBackendPrices despegarBackend).prices.despegar = some 100
      ∨ (formatBackendPrices despegarBackend).hotels ≠ []) := by
  have hb : strIncludes (strLower "Despegar") "booking" = false := by decide
  have he : strIncludes (strLower "Despegar") "expedia" = false := by decide
  have hh : strIncludes (strLower "Despegar") "hotels" = false := by decide
  have heval : formatBackendPrices despegarBackend
      = despegarBackend.results.foldl applyBackendResult (formatBackendPrices
          { despegarBackend with results := [] }) := by
    rfl
  have hfold : formatBackendPrices despegarBackend
      = formatBackendPrices { despegarBackend with results := [] } := by
    rw [heval]
    exact foldl_applyBackendResult_unmatched _ _ (by
      intro r hr
      simp [despegarBackend] at hr
      subst hr
      exact ⟨hb, he, hh⟩)
  rw [hfold]
  refine ⟨rfl, rfl, ?_⟩
  intro hcon
  rcases hcon with hcon | hcon
  · have : (0 : ℚ) = 100 := by
      have := Option.some.inj hcon
      exact this
    norm_num at this
  · exact hcon rfl

/-- C3 (amended): normalization maps a result's free-text source label by
    case-insensitive substring match onto one of the THREE canonical keys
    booking, expedia, hotels (in that priority order), setting that key's
    price and appending a display row; the canonical despegar key is
    never written (it stays 0) and a result matching no key — including
    one labelled despegar — is omitted from the canonical map AND from
    the auxiliary hotels display list. -/
theorem formatBackendPrices_normalization :
    (∀ d : BackendData, (formatBackendPrices d).prices.despegar = some 0)
  ∧ (∀ d : BackendData,
        (∀ r ∈ d.results,
            strIncludes (strLower r.source) "booking" = false
          ∧ strIncludes (strLower r.source) "expedia" = false
          ∧ strIncludes (strLower r.source) "hotels" = false) →
        formatBackendPrices d = formatBackendPrices { d with results := [] }
        ∧ (formatBackendPrices d).hotels = [])
  ∧ (∀ (d : BackendData) (r : BackendResult), d.results = [r] →
        strIncludes (strLower r.source) "booking" = true →
        (formatBackendPrices d).prices.booking = r.price_per_night
        ∧ (formatBackendPrices d).hotels
            = [{ name := r.hotel_name, source := "Booking.com"
                 price := r.price_per_night, url := r.url }])
  ∧ (∀ (d : BackendData) (r : BackendResult), d.results = [r] →
        strIncludes (strLower r.source) "booking" = false →
        strIncludes (strLower r.source) "expedia" = true →
        (formatBackendPrices d).prices.expedia = r.price_per_night
        ∧ (formatBackendPrices d).hotels
            = [{ name := r.hotel_name, source := "Expedia"
                 price := r.price_per_night, url := r.url }])
  ∧ (∀ (d : BackendData) (r : BackendResult), d.results = [r] →
        strIncludes (strLower r.source) "booking" = false →
        strIncludes (strLower r.source) "expedia" = false →
        strIncludes (strLower r.source) "hotels" = true →
        (formatBackendPrices d).prices.hotels = r.price_per_night
        ∧ (formatBackendPrices d).hotels
            = [{ name := r.hotel_name, source := "Hotels.com"
                 price := r.price_per_night, url := r.url }]) := by
  refine ⟨?_, ?_, ?_, ?_, ?_⟩
  · intro d
    unfold formatBackendPrices
    rw [foldl_applyBackendResult_despegar]
  · intro d h
    have hfold : formatBackendPrices d = formatBackendPrices { d with results := [] } := by
      unfold formatBackendPrices
      exact foldl_applyBackendResult_unmatched _ _ h
    exact ⟨hfold, by rw [hfold]; rfl⟩
  · intro d r hres hb
    unfold formatBackendPrices
    rw [hres]
    simp only [List.foldl_cons, List.foldl_nil]
    unfold applyBackendResult
    dsimp only
    rw [hb]
    simp
  · intro d r hres hb he
    unfold formatBackendPrices
    rw [hres]
    simp only [List.foldl_cons, List.foldl_nil]
    unfold applyBackendResult
    dsimp only
    rw [hb, he]
    simp
  · intro d r hres hb he hh
    unfold formatBackendPrices
    rw [hres]
    simp only [List.foldl_cons, List.foldl_nil]
    unfold applyBackendResult
    dsimp only
    rw [hb, he, hh]
    simp

/-- C3 witness: a result labelled "Booking.com mirror" lands on the
    booking key with its display row. -/
theorem formatBackendPrices_normalization_w :
    (formatBackendPrices
        { despegarBackend with
          results := [{ source := "Booking.com mirror", hotel_name := "Hotel B"
                        price_per_night := some 150, url := "b" }] }).prices.booking
      = some 150 :=
  (formatBackendPrices_normalization.2.2.1
    { despegarBackend with
      results := [{ source := "Booking.com mirror", hotel_name := "Hotel B"
                    price_per_night := some 150, url := "b" }] }
    { source := "Booking.com mirror", hotel_name := "Hotel B"
      price_per_night := some 150, url := "b" }
    rfl (by decide)).1

/-- C2 (amended): when the primary endpoint is configured and answers
    non-success, exactly one additional request is issued, to the
    fallback endpoint, with the identical payload; if the fallback also
    answers non-success the surfaced error is the generic
    "Fallback también falló" — the fallback response's structured error
    detail is NOT consulted on this path (a response's `detail` is used
    only when the initial request itself went to the fallback endpoint);
    if the fallback succeeds its payload is returned. -/
theorem getRealTimePrices_fallback_chain :
    ∀ (c : Config) (net : String → RequestBody → HttpResponse)
      (destination checkin checkout : String) (guests rooms : ℚ) (p f : String),
    c.isGithubPages = false → c.mode = "hybrid" →
    c.apiUrlPrimary = some p → p ≠ "" → c.apiUrlFallback = some f →
    (net (p ++ "/check-prices")
        ⟨destination, checkin, checkout, guests, rooms⟩).ok = false →
    ((getRealTimePrices c net destination checkin checkout guests rooms).2
        = [(p ++ "/check-prices", ⟨destination, checkin, checkout, guests, rooms⟩),
           (f ++ "/check-prices", ⟨destination, checkin, checkout, guests, rooms⟩)])
    ∧ ((net (f ++ "/check-prices") ⟨destination, checkin, checkout, guests, rooms⟩).ok
          = false →
        (getRealTimePrices c net destination checkin checkout guests rooms).1
          = Except.error (JsError.thrown "Fallback también falló"))
    ∧ ((net (f ++ "/check-prices") ⟨destination, checkin, checkout, guests, rooms⟩).ok
          = true →
        (getRealTimePrices c net destination checkin checkout guests rooms).1
          = Except.ok (net (f ++ "/check-prices")
              ⟨destination, checkin, checkout, guests, rooms⟩).data) := by
  intro c net destination checkin checkout guests rooms p f hgh hmode hprim hp hfb hfail
  have hres : resolveApiUrl c = some p := by
    simp [resolveApiUrl, hgh, hmode, jsOrStrOpt, strTruthy, hprim, hp]
  cases hok : (net (f ++ "/check-prices")
      (⟨destination, checkin, checkout, guests, rooms⟩ : RequestBody)).ok with
  | false =>
    have heval : getRealTimePrices c net destination checkin checkout guests rooms
        = (Except.error (JsError.thrown "Fallback también falló"),
           [(p ++ "/check-prices", ⟨destination, checkin, checkout, guests, rooms⟩),
            (f ++ "/check-prices", ⟨destination, checkin, checkout, guests, rooms⟩)]) := by
      simp [getRealTimePrices, hgh, hmode, hres, hprim, hfb, jsStringOfNullable,
        hfail, hok, strIncludes_append_left]
    rw [heval]
    exact ⟨rfl, fun _ => rfl, fun hcon => Bool.noConfusion hcon⟩
  | true =>
    have heval : getRealTimePrices c net destination checkin checkout guests rooms
        = (Except.ok (net (f ++ "/check-prices")
              (⟨destination, checkin, checkout, guests, rooms⟩ : RequestBody)).data,
           [(p ++ "/check-prices", ⟨destination, checkin, checkout, guests, rooms⟩),
            (f ++ "/check-prices", ⟨destination, checkin, checkout, guests, rooms⟩)]) := by
      simp [getRealTimePrices, hgh, hmode, hres, hprim, hfb, jsStringOfNullable,
        hfail, hok, strIncludes_append_left]
    rw [heval]
    exact ⟨rfl, fun hcon => Bool.noConfusion hcon, fun _ => rfl⟩

/-- C2 witness: the fallback chaining evaluated on the concrete failing
    network. -/
theorem getRealTimePrices_fallback_chain_w :
    (getRealTimePrices hybridCfg failNet "Cancun" "2025-06-01" "2025-06-05" 2 1).2
      = [("http://p/check-prices", ⟨"Cancun", "2025-06-01", "2025-06-05", 2, 1⟩),
         ("http://f/check-prices", ⟨"Cancun", "2025-06-01", "2025-06-05", 2, 1⟩)] :=
  (getRealTimePrices_fallback_chain hybridCfg failNet "Cancun" "2025-06-01" "2025-06-05"
    2 1 "http://p" "http://f" rfl rfl rfl (by decide) rfl (by decide)).1

/-- C2 counterexample: with the fallback's structured detail being
    "fallback-detail", the surfaced error is the generic
    "Fallback también falló", not that detail. -/
theorem getRealTimePrices_fallback_detail_cex :
    (getRealTimePrices hybridCfg failNet "Cancun" "2025-06-01" "2025-06-05" 2 1).1
      = Except.error (JsError.thrown "Fallback también falló")
  ∧ (failNet "http://f/check-prices"
        ⟨"Cancun", "2025-06-01", "2025-06-05", 2, 1⟩).errBody
      = some { detail := some "fallback-detail" }
  ∧ (getRealTimePrices hybridCfg failNet "Cancun" "2025-06-01" "2025-06-05" 2 1).1
      ≠ Except.error (JsError.thrown "fallback-detail") := by
  have heval : (getRealTimePrices hybridCfg failNet "Cancun" "2025-06-01" "2025-06-05" 2 1).1
      = Except.error (JsError.thrown "Fallback también falló") := by rfl
  refine ⟨heval, by decide, ?_⟩
  rw [heval]
  intro hcon
  simp at hcon

/-- C1: in hybrid mode with a prior cache match, a remote failure does
    NOT resolve to the cache-derived result: the catch block reads the
    `let`-scoped `formattedCached` declared inside the `try` block, so
    the handler itself raises a ReferenceError and the async function
    rejects.  (The cache entry demonstrably matched first.) -/
theorem updatePriceChecker_remote_failure_throws :
    (findCachedEntry cancunCache "Cancun" "2025-06-01" "2025-06-05").isSome = true
  ∧ (updatePriceCheckerWithRealData hybridCfg failNet cancunCache
        "2025-06-01T00:00:00Z" (fun t => t) "Cancun" "2025-06-01" "2025-06-05"
        emptyDom).1
      = Except.error (JsError.referenceError "formattedCached") := by
  exact ⟨rfl, rfl⟩

/-- C8: whenever the configuration is static (in particular on GitHub
    Pages), the resolution pipeline issues no remote request at all and
    returns the cache-derived result (or none), and a direct call to
    `getRealTimePrices` fails immediately with the static-mode error,
    also without issuing any request. -/
theorem static_mode_no_remote :
    (∀ (c : Config) (net : String → RequestBody → HttpResponse)
        (cache : Option Cache) (now : String) (fmtLive : String → String)
        (d ci co : String) (dom : Dom),
        c.isGithubPages = true ∨ c.mode = "static" →
        (updatePriceCheckerWithRealData c net cache now fmtLive d ci co dom).1
          = Except.ok ((findCachedEntry cache d ci co).map (formatCacheEntry now))
        ∧ (updatePriceCheckerWithRealData c net cache now fmtLive d ci co dom).2.2 = [])
  ∧ (∀ (c : Config) (net : String → RequestBody → HttpResponse)
        (d ci co : String) (guests rooms : ℚ),
        c.isGithubPages = true ∨ c.mode = "static" →
        getRealTimePrices c net d ci co guests rooms
          = (Except.error (JsError.thrown "Modo estático: sin backend disponible"), [])) := by
  constructor
  · intro c net cache now fmtLive d ci co dom h
    have hcond : (c.isGithubPages || c.mode == "static") = true := by
      rcases h with h | h <;> simp [h]
    constructor <;>
      simp only [updatePriceCheckerWithRealData, hcond, if_true, Bool.true_eq, ite_true]
  · intro c net d ci co guests rooms h
    have hcond : (c.isGithubPages || c.mode == "static"
        || (resolveApiUrl c).isNone) = true := by
      rcases h with h | h <;> simp [h]
    simp [getRealTimePrices, hcond]

/-- C8 witness: the static guarantees evaluated on the GitHub-Pages
    configuration, a failing network and the Cancun snapshot. -/
theorem static_mode_no_remote_w :
    ((updatePriceCheckerWithRealData staticCfg failNet cancunCache "T" (fun t => t)
        "Cancun" "2025-06-01" "2025-06-05" emptyDom).2.2 = [])
  ∧ getRealTimePrices staticCfg failNet "Cancun" "2025-06-01" "2025-06-05" 2 1
      = (Except.error (JsError.thrown "Modo estático: sin backend disponible"), []) :=
  ⟨(static_mode_no_remote.1 staticCfg failNet cancunCache "T" (fun t => t)
      "Cancun" "2025-06-01" "2025-06-05" emptyDom (Or.inl rfl)).2,
    static_mode_no_remote.2 staticCfg failNet "Cancun" "2025-06-01" "2025-06-05" 2 1
      (Or.inl rfl)⟩

/-- C4: the refresh handler returns 500 when no secret is configured
    (unset or empty env var), 401 when the combined Authorization header
    is missing/falsy or does not begin with "Bearer ", 403 when the
    extracted token (the substring after "Bearer ", trimmed) differs
    from the secret, and with the correct token and body `{all:true}` a
    success whose entries count equals the number of configured presets
    and whose `count` field equals that length. -/
theorem refreshHandler_auth_spec :
    ∀ (dateMs : String → ℚ) (rand : Nat → String → ℚ) (now : String)
      (ev : RefreshEvent) (s a : String) (b : RefreshBody),
    (refreshHandler none dateMs rand now ev
        = Except.ok (RefreshResponse.failure 500 "Missing REFRESH_TOKEN env var"))
  ∧ (refreshHandler (some "") dateMs rand now ev
        = Except.ok (RefreshResponse.failure 500 "Missing REFRESH_TOKEN env var"))
  ∧ (s ≠ "" → strTruthy (authHeaderOf ev) = false →
      refreshHandler (some s) dateMs rand now ev
        = Except.ok (RefreshResponse.failure 401 "Missing Bearer token"))
  ∧ (s ≠ "" → authHeaderOf ev = some a → strStartsWith a "Bearer " = false →
      refreshHandler (some s) dateMs rand now ev
        = Except.ok (RefreshResponse.failure 401 "Missing Bearer token"))
  ∧ (s ≠ "" → authHeaderOf ev = some a → a ≠ "" → strStartsWith a "Bearer " = true →
      strTrim (strDrop a 7) ≠ s →
      refreshHandler (some s) dateMs rand now ev
        = Except.ok (RefreshResponse.failure 403 "Invalid token"))
  ∧ (s ≠ "" → authHeaderOf ev = some a → a ≠ "" → strStartsWith a "Bearer " = true →
      strTrim (strDrop a 7) = s → ev.body = some (some (ParsedBody.value b)) →
      b.all = true →
      refreshHandler (some s) dateMs rand now ev
        = Except.ok (RefreshResponse.success now (genAllPresets dateMs rand)
            "refresh-function" (genAllPresets dateMs rand).length)
      ∧ (genAllPresets dateMs rand).length = PRESETS.length) := by
  intro dateMs rand now ev s a b
  have hsec : ∀ t : String, t ≠ "" → strTruthy (some t) = true := by
    intro t ht
    simp [strTruthy, ht]
  refine ⟨rfl, rfl, ?_, ?_, ?_, ?_⟩
  · intro hs hauth
    simp [refreshHandler, hauth, hsec s hs]
  · intro hs hauth hstart
    simp [refreshHandler, hauth, hsec s hs, jsOrStr_some_empty, hstart]
  · intro hs hauth ha hstart hne
    simp [refreshHandler, hauth, hsec s hs, hsec a ha, jsOrStr_some_empty, hstart, hne]
  · intro hs hauth ha hstart hprov hbody hall
    refine ⟨?_, rfl⟩
    simp [refreshHandler, hauth, hsec s hs, hsec a ha, jsOrStr_some_empty, hstart,
      hprov, hbody, hall]

/-- The event used by the C4 witness: lowercase authorization header with
    token "tok" and parsed body `{all:true}`. -/
def allTrueEvent : RefreshEvent :=
  { authHeaderLower := some "Bearer tok", authHeaderCap := none
    body := some (some (ParsedBody.value { destination := none, checkin := none
                                           checkout := none, all := true })) }

/-- C4 witness: the full authorization ladder evaluated at the concrete
    secret "tok". -/
theorem refreshHandler_auth_spec_w :
    refreshHandler (some "tok") (fun _ => 0) (fun _ _ => 0) "N" allTrueEvent
      = Except.ok (RefreshResponse.success "N" (genAllPresets (fun _ => 0) (fun _ _ => 0))
          "refresh-function" (genAllPresets (fun _ => 0) (fun _ _ => 0)).length)
  ∧ (genAllPresets (fun _ => 0) (fun _ _ => 0)).length = PRESETS.length :=
  (refreshHandler_auth_spec (fun _ => 0) (fun _ _ => 0) "N" allTrueEvent "tok"
    "Bearer tok" { destination := none, checkin := none, checkout := none, all := true }
    ).2.2.2.2.2 (by decide) rfl (by decide) (by decide) (by decide) rfl rfl

/-- The event of the C9 counterexample: correctly authorized, but the
    request body is the text "null", which `JSON.parse` accepts (the
    catch does not fire) and which then cannot be destructured. -/
def nullBodyEvent : RefreshEvent :=
  { authHeaderLower := some "Bearer tok", authHeaderCap := none
    body := some (some ParsedBody.nullValue) }

/-- C9 counterexample: an authorized request with body "null" parses
    successfully, lacks both `all:true` and the triple — inside the
    claim's hypothesis — yet destructuring the parsed `null` throws a
    TypeError, so the handler rejects instead of returning the 200
    all-presets payload. -/
theorem refreshHandler_null_body_cex :
    refreshHandler (some "tok") (fun _ => 0) (fun _ _ => 0) "N" nullBodyEvent
      = Except.error (JsError.typeError "Cannot destructure property of null")
  ∧ refreshHandler (some "tok") (fun _ => 0) (fun _ _ => 0) "N" nullBodyEvent
      ≠ Except.ok (RefreshResponse.success "N" (genAllPresets (fun _ => 0) (fun _ _ => 0))
          "refresh-function" (genAllPresets (fun _ => 0) (fun _ _ => 0)).length) :=
  ⟨rfl, fun hcon => Except.noConfusion hcon⟩

/-- C9 (amended): for an authorized request whose body is missing,
    unparseable as JSON, or parses to a NON-NULL value lacking both
    `all:true` and a complete truthy destination/checkin/checkout
    triple, the handler does not fail: it treats the body as empty and
    returns the success payload generated for ALL configured presets —
    the same response `{all:true}` yields.  The one exception is a body
    that parses to the JSON literal `null`: it passes the parse (the
    catch substituting `{}` does not fire) and the destructuring of
    `null` throws a TypeError that escapes the handler. -/
theorem refreshHandler_body_default :
    ∀ (dateMs : String → ℚ) (rand : Nat → String → ℚ) (now : String)
      (ev : RefreshEvent) (s a : String) (b : RefreshBody),
    s ≠ "" → authHeaderOf ev = some a → a ≠ "" → strStartsWith a "Bearer " = true →
    strTrim (strDrop a 7) = s →
    (ev.body = none →
        refreshHandler (some s) dateMs rand now ev
          = Except.ok (RefreshResponse.success now (genAllPresets dateMs rand)
              "refresh-function" (genAllPresets dateMs rand).length))
  ∧ (ev.body = some none →
        refreshHandler (some s) dateMs rand now ev
          = Except.ok (RefreshResponse.success now (genAllPresets dateMs rand)
              "refresh-function" (genAllPresets dateMs rand).length))
  ∧ (ev.body = some (some (ParsedBody.value b)) → b.all = false →
        (strTruthy b.destination && strTruthy b.checkin && strTruthy b.checkout) = false →
        refreshHandler (some s) dateMs rand now ev
          = Except.ok (RefreshResponse.success now (genAllPresets dateMs rand)
              "refresh-function" (genAllPresets dateMs rand).length))
  ∧ (ev.body = some (some ParsedBody.nullValue) →
        refreshHandler (some s) dateMs rand now ev
          = Except.error (JsError.typeError "Cannot destructure property of null")) := by
  intro dateMs rand now ev s a b hs hauth ha hstart hprov
  have hsec : ∀ t : String, t ≠ "" → strTruthy (some t) = true := by
    intro t ht
    simp [strTruthy, ht]
  refine ⟨?_, ?_, ?_, ?_⟩
  · intro hbody
    simp [refreshHandler, hauth, hsec s hs, hsec a ha, jsOrStr_some_empty, hstart,
      hprov, hbody]
    simp [strTruthy]
  · intro hbody
    simp [refreshHandler, hauth, hsec s hs, hsec a ha, jsOrStr_some_empty, hstart,
      hprov, hbody]
    simp [strTruthy]
  · intro hbody hall htriple
    simp [refreshHandler, hauth, hsec s hs, hsec a ha, jsOrStr_some_empty, hstart,
      hprov, hbody, hall, htriple]
  · intro hbody
    simp [refreshHandler, hauth, hsec s hs, hsec a ha, jsOrStr_some_empty, hstart,
      hprov, hbody]

/-- C9 witness: an authorized request with no body at all is answered
    with entries for all presets. -/
theorem refreshHandler_body_default_w :
    refreshHandler (some "tok") (fun _ => 0) (fun _ _ => 0) "N"
        { authHeaderLower := some "Bearer tok", authHeaderCap := none, body := none }
      = Except.ok (RefreshResponse.success "N" (genAllPresets (fun _ => 0) (fun _ _ => 0))
          "refresh-function" (genAllPresets (fun _ => 0) (fun _ _ => 0)).length) :=
  (refreshHandler_body_default (fun _ => 0) (fun _ _ => 0) "N"
    { authHeaderLower := some "Bearer tok", authHeaderCap := none, body := none }
    "tok" "Bearer tok" { destination := none, checkin := none, checkout := none, all := false }
    (by decide) rfl (by decide) (by decide) (by decide)).1 rfl
